import Mathlib

/-!
Shallow embedding of `src/make_adjustable_noise_mask.py` (repository
`noise_masking`): a script that records audio, derives band-noise parameters
from a SOX statistics table, plays synthetic noise, and mirrors the system
mixer volume onto the noise stream.

Numbers that Python holds as floats are modelled as rationals (the operations
the claims touch — division by 100, weighted averages — are exact), with
`Real.sqrt` and `Real.logb` for the square root and `log10` steps.  Strings
are parsed over `List Char` with structural recursion so every parsing
function evaluates by `decide`/`rfl`.
-/

namespace NoiseMasking

/-- Source `get_new_volume(volume_percentage, is_muted)` (line 84):
`return 0 if is_muted else (volume_percentage / 100.0)`. -/
def get_new_volume (volume_percentage : ℚ) (is_muted : Bool) : ℚ :=
  if is_muted then 0 else volume_percentage / 100

/-! ### Mixer-output parsing (`get_system_volume` / `set_system_volume`) -/

/-- Python's `str.split(sep)` for a single-character separator `c`:
`"".split(c) = [""]`, and occurrences of `c` delimit the pieces. -/
def splitOnChar (c : Char) : List Char → List (List Char)
  | [] => [[]]
  | x :: xs =>
    let rest := splitOnChar c xs
    if x = c then [] :: rest
    else
      match rest with
      | [] => [[x]]
      | r :: rs => (x :: r) :: rs

/-- Whether `pat` occurs at the head of `s` (helper for the substring test). -/
def beginsWith : List Char → List Char → Bool
  | [], _ => true
  | _ :: _, [] => false
  | p :: ps, x :: xs => p = x && beginsWith ps xs

/-- Python's `pat in s` substring test. -/
def containsSeq (pat : List Char) : List Char → Bool
  | [] => beginsWith pat []
  | x :: xs => beginsWith pat (x :: xs) || containsSeq pat xs

/-- Decimal digit value of a character, `none` for non-digits. -/
def digitVal (c : Char) : Option Nat :=
  if '0' ≤ c && c ≤ '9' then some (c.toNat - '0'.toNat) else none

/-- Accumulating parse of a digit string. -/
def parseNatAux : List Char → Nat → Option Nat
  | [], acc => some acc
  | c :: cs, acc =>
    match digitVal c with
    | none => none
    | some d => parseNatAux cs (acc * 10 + d)

/-- Python's `int(s)` modelled on optionally-sign-prefixed decimal strings
(the amixer percentage field): digits, optionally after a leading `-`. -/
def parseInt : List Char → Option Int
  | [] => none
  | '-' :: cs =>
    match cs, parseNatAux cs 0 with
    | [], _ => none
    | _ :: _, none => none
    | _ :: _, some n => some (-(n : Int))
  | c :: cs =>
    match parseNatAux (c :: cs) 0 with
    | none => none
    | some n => some (n : Int)

/-- Source lines 31–35 / 40–44: parse the `amixer sget Master` output —
`volume = int(output.split("[")[1].split("%")[0])`,
`is_muted = "off" in output`.  `none` models the exceptions Python raises
when the bracket is absent or the field is not an integer. -/
def parse_mixer_output (output : List Char) : Option (Int × Bool) :=
  match (splitOnChar '[' output).get? 1 with
  | none => none
  | some afterBracket =>
    match parseInt ((splitOnChar '%' afterBracket).headD []) with
    | none => none
    | some v => some (v, containsSeq ['o', 'f', 'f'] output)

/-- Source `get_system_volume()` (lines 30–35), as a function of the text the
`amixer sget Master` subprocess produced. -/
def get_system_volume (output : String) : Option (Int × Bool) :=
  parse_mixer_output output.data

/-- Source `set_system_volume(volume)` (lines 38–44), as a function of the
`volume` argument and the text the `amixer sget Master` subprocess produced;
the body re-reads the mixer exactly like `get_system_volume` and never uses
`volume`. -/
def set_system_volume (volume : Int) (output : String) : Option (Int × Bool) :=
  parse_mixer_output output.data

/-- The subprocess command `get_system_volume` runs (line 31). -/
def get_system_volume_command : List String :=
  ["amixer", "sget", "Master"]

/-- The subprocess command `set_system_volume` runs (line 40): also a read
(`sget`), independent of its `volume` argument. -/
def set_system_volume_command (volume : Int) : List String :=
  ["amixer", "sget", "Master"]

/-! ### Statistics stage (`main`, lines 210–216)

The table read by `np.loadtxt("data/data.txt", unpack=True)` is modelled as a
list of `(frequency, amplitude)` pairs. -/

/-- Sum of the amplitude column: `np.sum(amplitude)` (line 213). -/
def sum_amplitude (table : List (ℚ × ℚ)) : ℚ :=
  (table.map Prod.snd).sum

/-- Mean of the amplitude column: `np.mean(amplitude)` (line 211). -/
def mean_amplitude (table : List (ℚ × ℚ)) : ℚ :=
  sum_amplitude table / table.length

/-- Decibel volume: `volume_dB = 10 * np.log10(mean_amplitude)` (line 212). -/
noncomputable def volume_dB (table : List (ℚ × ℚ)) : ℝ :=
  10 * Real.logb 10 ((mean_amplitude table : ℝ))

/-- Amplitude-weighted mean frequency:
`np.average(frequency, weights=amplitude)` (line 215). -/
def weighted_mean (table : List (ℚ × ℚ)) : ℚ :=
  (table.map fun p => p.1 * p.2).sum / sum_amplitude table

/-- Amplitude-weighted variance of the frequency column:
`np.average((frequency - mean) ** 2, weights=amplitude)` (line 216). -/
def weighted_variance (table : List (ℚ × ℚ)) : ℚ :=
  (table.map fun p => (p.1 - weighted_mean table) ^ 2 * p.2).sum / sum_amplitude table

/-- Amplitude-weighted standard deviation:
`np.sqrt(np.average((frequency - mean) ** 2, weights=amplitude))` (line 216). -/
noncomputable def standard_deviation (table : List (ℚ × ℚ)) : ℝ :=
  Real.sqrt ((weighted_variance table : ℝ))

/-- The three noise parameters `main` passes from the analysis stage to the
playback stage (`mean`, `standard_deviation` as its variance, and
`mean_amplitude` feeding `volume_dB`). -/
structure NoiseParams where
  mean : ℚ
  variance : ℚ
  amp_mean : ℚ
deriving Repr, DecidableEq

/-- Statistics stage of `main` (lines 210–216): compute the mean amplitude,
then `raise ValueError("Error: No audio input signal.")` when
`np.sum(amplitude) == 0`, otherwise produce the weighted mean frequency and
weighted variance.  (`volume_dB` on line 212 is computed before the check but
raises nothing: `np.log10(0)` is a warning, not an exception.) -/
def stats_stage (table : List (ℚ × ℚ)) : Except String NoiseParams :=
  if sum_amplitude table = 0 then
    Except.error "Error: No audio input signal."
  else
    Except.ok ⟨weighted_mean table, weighted_variance table, mean_amplitude table⟩

/-! ### Interactive prompt (`main`, lines 190–203) -/

/-- The operator's choice when `data/data.txt` already exists. -/
inductive AudioChoice
  | recordNew
  | useOld
deriving Repr, DecidableEq

/-- One iteration of the prompt loop (lines 192–203): `"r"` records new
audio and breaks, `"o"` uses the old audio and breaks, anything else prints
the retry message and loops. -/
def prompt_step (user_input : String) : Option AudioChoice :=
  if user_input = "r" then some AudioChoice.recordNew
  else if user_input = "o" then some AudioChoice.useOld
  else none

/-- The `while True` prompt loop (lines 191–203) run on a finite stream of
operator inputs: the first `"r"`/`"o"` decides; if the stream is exhausted
without one, the loop is still waiting (`none`). -/
def prompt_loop : List String → Option AudioChoice
  | [] => none
  | s :: rest =>
    match prompt_step s with
    | some c => some c
    | none => prompt_loop rest

/-! ### Playback startup on Linux (`play_and_adjust_volume`, lines 127–167) -/

/-- Observable actions of the Linux playback path. -/
inductive PlayEvent
  | spawnNoise (vol_dB : ℚ)
  | setSinkVolume (gain : ℚ)
deriving Repr, DecidableEq

/-- Startup sequence of `play_and_adjust_volume` (lines 130–167), as the
trace of observable actions.  `sinkPresentInitially` is whether the first
`pulse.sink_input_list()` scan finds the sox stream, `sinkFoundAfterSpawn`
whether the rescan after spawning does.  When the sox stream is absent the
generator is spawned with `reduced_volume = initial_volume_dB - 20`
(lines 146–152); if it is then found, `set_volume` pushes the gain derived
from the system volume read on line 130 (line 167); if not, the function
prints and returns without setting any gain (lines 162–164). -/
def playback_start_events (sinkPresentInitially sinkFoundAfterSpawn : Bool)
    (initial_volume_dB volume_percentage : ℚ) (is_muted : Bool) : List PlayEvent :=
  if sinkPresentInitially then
    [PlayEvent.setSinkVolume (get_new_volume volume_percentage is_muted)]
  else if sinkFoundAfterSpawn then
    [PlayEvent.spawnNoise (initial_volume_dB - 20),
     PlayEvent.setSinkVolume (get_new_volume volume_percentage is_muted)]
  else
    [PlayEvent.spawnNoise (initial_volume_dB - 20)]

/-! ### Interrupt shutdown (`play_and_adjust_volume` lines 175–183 and
`main` lines 227–235) -/

/-- Observable actions of the interrupt-handling paths. -/
inductive ExitEvent
  | printMsg (s : String)
  | killProcessGroup (pgid : Int) (sig : Int)
  | exitCode (code : Int)
deriving Repr, DecidableEq

/-- The termination signal `signal.SIGTERM`. -/
def SIGTERM : Int := 15

/-- The `except KeyboardInterrupt` handler of the polling loop
(lines 175–183): print, send `SIGTERM` to the noise process's process group
when one exists, and re-raise.  `pgid` models `os.getpgid`. -/
def loop_interrupt_events (pgid : Int → Int) (noise_process : Option Int) :
    List ExitEvent :=
  ExitEvent.printMsg "Exiting volume-adjust loop." ::
    (match noise_process with
     | some pid => [ExitEvent.killProcessGroup (pgid pid) SIGTERM]
     | none => [])

/-- The `except KeyboardInterrupt` handler of `main` (lines 227–235): print,
send `SIGTERM` to the noise process group again as a fallback, and
`sys.exit(0)`. -/
def main_interrupt_events (pgid : Int → Int) (noise_process : Option Int) :
    List ExitEvent :=
  ExitEvent.printMsg "\nExiting gracefully..." ::
    ((match noise_process with
      | some pid => [ExitEvent.killProcessGroup (pgid pid) SIGTERM]
      | none => []) ++ [ExitEvent.exitCode 0])

/-- Full shutdown trace when an interrupt arrives during the polling loop:
the loop's handler runs, the re-raised interrupt reaches `main`'s handler,
and the process exits. -/
def interrupt_shutdown (pgid : Int → Int) (noise_process : Option Int) :
    List ExitEvent :=
  loop_interrupt_events pgid noise_process ++ main_interrupt_events pgid noise_process

/-! ## Claim theorems -/

/-- C1: Volume-to-gain conversion — `get_new_volume` returns exactly `0` when
`is_muted` is true regardless of the percentage, and `volume_percentage / 100`
when it is false; in particular unmuted at 100 gives `1` and unmuted at 50
gives `1/2`. -/
theorem C1_volume_to_gain_conversion :
    (∀ v : ℚ, get_new_volume v true = 0) ∧
    (∀ v : ℚ, get_new_volume v false = v / 100) ∧
    get_new_volume 100 false = 1 ∧
    get_new_volume 50 false = 1 / 2 := by
  refine ⟨fun v => rfl, fun v => rfl, ?_, ?_⟩ <;> norm_num [get_new_volume]

/-- C2: For every statistics table whose amplitude column sums to zero, the
statistics stage fails with the `ValueError` message
"Error: No audio input signal." instead of producing the mean frequency and
standard deviation. -/
theorem C2_zero_amplitude_no_signal_error (table : List (ℚ × ℚ))
    (h : sum_amplitude table = 0) :
    stats_stage table = Except.error "Error: No audio input signal." := by
  simp [stats_stage, h]

/-- Witness for C2 at the table `[(100, 0), (200, 0)]`. -/
theorem C2_zero_amplitude_no_signal_error_witness :
    stats_stage [((100 : ℚ), (0 : ℚ)), (200, 0)] =
      Except.error "Error: No audio input signal." :=
  C2_zero_amplitude_no_signal_error [((100 : ℚ), (0 : ℚ)), (200, 0)]
    (by norm_num [sum_amplitude])

/-- C3: `set_system_volume` ignores its `volume` parameter entirely — it runs
the same read command (`amixer sget Master`, no write) and returns the same
`(volume, is_muted)` pair as `get_system_volume` on the same mixer output. -/
theorem C3_set_system_volume_is_a_read :
    (∀ (v : Int) (output : String),
        set_system_volume v output = get_system_volume output) ∧
    (∀ v : Int, set_system_volume_command v = get_system_volume_command) :=
  ⟨fun _ _ => rfl, fun _ => rfl⟩

/-- The concrete table `[(100 Hz, amp 1), (300 Hz, amp 1)]` of the end-to-end
scenario. -/
def scenario_table : List (ℚ × ℚ) := [(100, 1), (300, 1)]

/-- C4: On the table `[(100, 1), (300, 1)]` the statistics stage yields
weighted mean frequency 200 Hz, weighted standard deviation 100 Hz
(variance 10000), mean amplitude 1, and volume 0 dB. -/
theorem C4_end_to_end_scenario :
    stats_stage scenario_table = Except.ok ⟨200, 10000, 1⟩ ∧
    weighted_mean scenario_table = 200 ∧
    standard_deviation scenario_table = 100 ∧
    mean_amplitude scenario_table = 1 ∧
    volume_dB scenario_table = 0 := by
  have hmean : weighted_mean scenario_table = 200 := by
    norm_num [weighted_mean, sum_amplitude, scenario_table]
  have hvar : weighted_variance scenario_table = 10000 := by
    rw [weighted_variance, hmean]
    norm_num [sum_amplitude, scenario_table]
  have hamp : mean_amplitude scenario_table = 1 := by
    norm_num [mean_amplitude, sum_amplitude, scenario_table]
  refine ⟨?_, hmean, ?_, hamp, ?_⟩
  · rw [stats_stage, if_neg (by norm_num [sum_amplitude, scenario_table])]
    rw [hmean, hvar, hamp]
  · rw [standard_deviation, hvar]
    rw [show (((10000 : ℚ) : ℝ)) = 100 ^ 2 by norm_num]
    exact Real.sqrt_sq (by norm_num)
  · rw [volume_dB, hamp]
    simp

/-- Helper: a constant amplitude column sums to the amplitude times the row
count. -/
theorem sum_map_snd_const (table : List (ℚ × ℚ)) (a : ℚ)
    (hall : ∀ p ∈ table, p.2 = a) :
    (table.map Prod.snd).sum = a * table.length := by
  induction table with
  | nil => simp
  | cons p rest ih =>
    simp only [List.map_cons, List.sum_cons, List.length_cons]
    rw [hall p (List.mem_cons_self p rest),
        ih fun q hq => hall q (List.mem_cons_of_mem p hq)]
    push_cast
    ring

/-- Helper: with a constant amplitude column the frequency·amplitude column
sums to the amplitude times the frequency sum. -/
theorem sum_map_mul_const (table : List (ℚ × ℚ)) (a : ℚ)
    (hall : ∀ p ∈ table, p.2 = a) :
    (table.map fun p => p.1 * p.2).sum = a * (table.map Prod.fst).sum := by
  induction table with
  | nil => simp
  | cons p rest ih =>
    simp only [List.map_cons, List.sum_cons]
    rw [hall p (List.mem_cons_self p rest),
        ih fun q hq => hall q (List.mem_cons_of_mem p hq)]
    ring

/-- C5: For every non-empty table whose amplitudes are all equal to the same
positive value, the amplitude-weighted mean frequency equals the unweighted
arithmetic mean of the frequency column. -/
theorem C5_uniform_amplitude_mean (table : List (ℚ × ℚ)) (a : ℚ)
    (hne : table ≠ []) (ha : 0 < a) (hall : ∀ p ∈ table, p.2 = a) :
    weighted_mean table = (table.map Prod.fst).sum / table.length := by
  have _ := hne
  rw [weighted_mean, sum_amplitude, sum_map_snd_const table a hall,
      sum_map_mul_const table a hall, mul_div_mul_left _ _ (ne_of_gt ha)]

/-- Witness for C5 at the table `[(1, 2), (3, 2)]` with amplitude 2. -/
theorem C5_uniform_amplitude_mean_witness :
    weighted_mean [((1 : ℚ), (2 : ℚ)), (3, 2)] =
      (([((1 : ℚ), (2 : ℚ)), (3, 2)]).map Prod.fst).sum /
        ([((1 : ℚ), (2 : ℚ)), (3, 2)] : List (ℚ × ℚ)).length :=
  C5_uniform_amplitude_mean [((1 : ℚ), (2 : ℚ)), (3, 2)] 2 (by simp)
    (by norm_num)
    (by
      rintro p hp
      simp only [List.mem_cons, List.not_mem_nil, or_false] at hp
      rcases hp with rfl | rfl <;> rfl)

/-- C6: The decibel volume is `10 * log10(mean amplitude)`; in particular a
mean amplitude of 1 yields 0 dB and a mean amplitude of 10 yields 10 dB. -/
theorem C6_decibel_conversion (table : List (ℚ × ℚ)) :
    volume_dB table = 10 * Real.logb 10 ((mean_amplitude table : ℝ)) ∧
    (mean_amplitude table = 1 → volume_dB table = 0) ∧
    (mean_amplitude table = 10 → volume_dB table = 10) := by
  refine ⟨rfl, fun h => ?_, fun h => ?_⟩
  · rw [volume_dB, h]
    simp
  · rw [volume_dB, h]
    rw [show (((10 : ℚ) : ℝ)) = 10 by norm_num,
        Real.logb_self_eq_one (by norm_num)]
    norm_num

/-- Witness for C6 at the tables `[(5, 1)]` and `[(5, 10)]`. -/
theorem C6_decibel_conversion_witness :
    volume_dB [((5 : ℚ), (1 : ℚ))] = 0 ∧ volume_dB [((5 : ℚ), (10 : ℚ))] = 10 :=
  ⟨(C6_decibel_conversion [((5 : ℚ), (1 : ℚ))]).2.1
      (by norm_num [mean_amplitude, sum_amplitude]),
   (C6_decibel_conversion [((5 : ℚ), (10 : ℚ))]).2.2
      (by norm_num [mean_amplitude, sum_amplitude])⟩

/-- C7 counterexample: the claim "volume_percentage as returned by
`get_system_volume` lies in [0,100]" is false — on the mixer output
`"Mono: Playback 48 [150%] [on]"` (over-amplified volume, which amixer does
report) `get_system_volume` returns 150, outside [0,100]; nothing in the
program clamps or validates it. -/
theorem C7_volume_range_counterexample :
    get_system_volume "Mono: Playback 48 [150%] [on]" = some (150, false) ∧
    ¬ ((150 : Int) ≤ 100) := by
  exact ⟨rfl, by decide⟩

/-- C7 (amended): the program does not itself force the parsed
volume_percentage into [0,100] — it lies there only when the mixer output
reports a percentage in that range; what does hold in every state is that a
muted state yields gain exactly 0 regardless of the percentage, and an
in-range percentage yields a gain in [0,1]. -/
theorem C7_amended_invariant (out : String) (v : Int) (m : Bool)
    (h : get_system_volume out = some (v, m)) :
    get_new_volume (v : ℚ) true = 0 ∧
    (0 ≤ v → v ≤ 100 →
      0 ≤ get_new_volume (v : ℚ) false ∧ get_new_volume (v : ℚ) false ≤ 1) := by
  have _ := h
  refine ⟨rfl, fun h0 h100 => ?_⟩
  simp only [get_new_volume, if_neg (by simp : ¬ (false = true))]
  constructor
  · exact div_nonneg (by exact_mod_cast h0) (by norm_num)
  · rw [div_le_one (by norm_num)]
    exact_mod_cast h100.trans (by norm_num)

/-- Witness for C7 (amended) at mixer output `"Mono: Playback [50%] [on]"`. -/
theorem C7_amended_invariant_witness :
    get_new_volume ((50 : Int) : ℚ) true = 0 ∧
    (0 ≤ get_new_volume ((50 : Int) : ℚ) false ∧
      get_new_volume ((50 : Int) : ℚ) false ≤ 1) := by
  have h := C7_amended_invariant "Mono: Playback [50%] [on]" 50 false rfl
  exact ⟨h.1, h.2 (by norm_num) (by norm_num)⟩

/-- C8: When an interrupt arrives during the volume-polling loop while the
noise child is running, its process group is sent SIGTERM via `killpg`, and
the shutdown trace ends with process exit code 0. -/
theorem C8_interrupt_kills_child_and_exits_zero (pgid : Int → Int) (pid : Int) :
    ExitEvent.killProcessGroup (pgid pid) SIGTERM ∈
      interrupt_shutdown pgid (some pid) ∧
    (interrupt_shutdown pgid (some pid)).getLast? =
      some (ExitEvent.exitCode 0) := by
  constructor
  · simp [interrupt_shutdown, loop_interrupt_events, main_interrupt_events]
  · rfl

/-- C9: With prior data present, the prompt loop proceeds only on the exact
inputs `"r"` (record new) or `"o"` (use old); every other input reprompts,
and the loop can only ever terminate on an input that is `"r"` or `"o"`. -/
theorem C9_prompt_only_r_or_o :
    prompt_step "r" = some AudioChoice.recordNew ∧
    prompt_step "o" = some AudioChoice.useOld ∧
    (∀ s : String, s ≠ "r" → s ≠ "o" → prompt_step s = none) ∧
    (∀ (s : String) (rest : List String), s ≠ "r" → s ≠ "o" →
        prompt_loop (s :: rest) = prompt_loop rest) ∧
    (∀ (inputs : List String) (c : AudioChoice),
        prompt_loop inputs = some c → ∃ s ∈ inputs, s = "r" ∨ s = "o") := by
  have hstep : ∀ s : String, s ≠ "r" → s ≠ "o" → prompt_step s = none := by
    intro s h1 h2
    simp [prompt_step, h1, h2]
  refine ⟨rfl, rfl, hstep, fun s rest h1 h2 => ?_, fun inputs => ?_⟩
  · rw [prompt_loop, hstep s h1 h2]
  · induction inputs with
    | nil => intro c hc; simp [prompt_loop] at hc
    | cons s rest ih =>
      intro c hc
      by_cases h1 : s = "r"
      · exact ⟨s, List.mem_cons_self s rest, Or.inl h1⟩
      · by_cases h2 : s = "o"
        · exact ⟨s, List.mem_cons_self s rest, Or.inr h2⟩
        · rw [prompt_loop, hstep s h1 h2] at hc
          obtain ⟨t, ht, hro⟩ := ih c hc
          exact ⟨t, List.mem_cons_of_mem s ht, hro⟩

/-- Witness for C9: the input `"x"` reprompts. -/
theorem C9_prompt_only_r_or_o_witness :
    prompt_step "x" = none ∧ prompt_loop ["x", "o"] = prompt_loop ["o"] :=
  ⟨C9_prompt_only_r_or_o.2.2.1 "x" (by decide) (by decide),
   C9_prompt_only_r_or_o.2.2.2.1 "x" ["o"] (by decide) (by decide)⟩

/-- C10: On the Linux path, when no sox sink input is present initially (and
the stream is found after spawning), the generator is started with gain
`initial_volume_dB - 20` — not `initial_volume_dB` itself — and only
afterwards is the sink gain first overwritten with the system-volume-derived
gain. -/
theorem C10_startup_spawns_reduced_then_sets_gain
    (initial_volume_dB volume_percentage : ℚ) (is_muted : Bool) :
    playback_start_events false true initial_volume_dB volume_percentage
        is_muted =
      [PlayEvent.spawnNoise (initial_volume_dB - 20),
       PlayEvent.setSinkVolume (get_new_volume volume_percentage is_muted)] ∧
    initial_volume_dB - 20 ≠ initial_volume_dB := by
  refine ⟨rfl, fun h => ?_⟩
  rw [sub_eq_self] at h
  exact absurd h (by norm_num)

end NoiseMasking
